import Mathlib

/-!
Shallow embedding of `src/workers/miflora.py` (the `MifloraWorker` class of
the bluetooth2mqtt repository) and proofs about its per-device polling,
availability tracking, discovery-config generation and error handling.

The mutable attributes `error_count` and `is_online` live on the worker
object (`MifloraWorker` class attributes, lines 26-27 of the source), not on
individual devices; they are embedded as the `WorkerState` record threaded
through the transition functions.  Collaborator code that the repository
keeps outside `src/` (`workers/base.py`, `mqtt.py`, `const.py`) is modelled
from the spec where a claim depends on it; each such definition carries a
doc comment starting with "Modelled from the spec:".
-/

/-- Modelled from the spec: `MqttMessage` is declared in `mqtt.py`, which is
not under `src/`.  The spec describes an outbound message as a topic string
plus a payload string. -/
structure MqttMessage where
  topic : String
  payload : String
deriving DecidableEq, Repr

/-- Constant `ATTR_BATTERY` from line 17 of the source. -/
def ATTR_BATTERY : String := "battery"

/-- Constant `ATTR_LOW_BATTERY` from line 18 of the source. -/
def ATTR_LOW_BATTERY : String := "low_battery"

/-- The monitored parameters, line 20 of the source. -/
def monitoredAttrs : List String :=
  ["temperature", "moisture", "light", "conductivity", ATTR_BATTERY]

/-- The names bound at module level in `workers/miflora.py`: the imports of
lines 1-7 and the module-level assignments (lines 9, 17, 18, 20, 21, 23).
Python resolves a global name against exactly these bindings plus the
builtins, and `json` is neither a module global nor a Python builtin. -/
def moduleScope : List String :=
  ["DEFAULT_PER_DEVICE_TIMEOUT", "DEFAULT_ERRORS_TO_OFFLINE_COUNT",
   "DeviceTimeoutError", "MqttMessage", "MqttConfigMessage", "timeout",
   "BaseWorker", "retry", "logger", "REQUIREMENTS", "ATTR_BATTERY",
   "ATTR_LOW_BATTERY", "monitoredAttrs", "_LOGGER", "MifloraWorker"]

/-- Whether the name `json`, used on line 160 of the source, resolves in the
module scope. -/
def json_in_scope : Bool := moduleScope.contains "json"

/-- Configuration attributes of `MifloraWorker` (lines 24-25 of the source
plus the `update_retries` attribute inherited from `workers/base.py`). -/
structure Worker where
  errors_to_offline : Nat
  update_retries : Nat
  per_device_timeout : Nat
deriving DecidableEq, Repr

/-- The worker-level mutable attributes `error_count` and `is_online`
(lines 26-27 of the source).  `is_online` starts as Python `None` and is
embedded as `Option Bool`: `none` is `None`, `some true` is `True`,
`some false` is `False`. -/
structure WorkerState where
  error_count : Nat
  is_online : Option Bool
deriving DecidableEq, Repr

/-- The state of a freshly constructed worker: `error_count = 0`,
`is_online = None` (lines 26-27 of the source). -/
def initialState : WorkerState := { error_count := 0, is_online := none }

/-- Modelled from the spec: `format_topic` is defined in `workers/base.py`,
which is not under `src/`.  The spec says telemetry topics are keyed by the
device name and availability topics add an "availability" suffix; modelled
as the device name joined with the extra segments by "/". -/
def format_topic (name : String) (args : List String) : String :=
  String.intercalate "/" (name :: args)

/-- Embedding of `MifloraWorker.avail_offline`, lines 108-116 of the source:
increment `self.error_count`; if the incremented count has reached
`self.errors_to_offline` and `self.is_online is not False`, set
`self.is_online = False` and return one offline availability message,
otherwise return the empty list.  The commented-out line 113 means the
counter is never reset here. -/
def avail_offline (w : Worker) (s : WorkerState) (name : String) :
    WorkerState × List MqttMessage :=
  let s1 : WorkerState := { s with error_count := s.error_count + 1 }
  if w.errors_to_offline ≤ s1.error_count ∧ s1.is_online ≠ some false then
    ({ s1 with is_online := some false },
      [{ topic := format_topic name ["availability"], payload := "offline" }])
  else
    (s1, [])

/-- A successful set of the five parameter reads performed by
`update_device_state` (lines 154-158 of the source). -/
structure Readings where
  temperature : Int
  moisture : Int
  light : Int
  conductivity : Int
  battery : Int
deriving DecidableEq, Repr

/-- The dict built on lines 153-159 of the source, in insertion order. -/
def telemetryData (r : Readings) : List (String × Int) :=
  [("temperature", r.temperature), ("moisture", r.moisture),
   ("light", r.light), ("conductivity", r.conductivity),
   ("battery", r.battery)]

/-- JSON serialization of the telemetry dict, the intent of `json.dumps` on
line 160 of the source. -/
def dumps (kvs : List (String × Int)) : String :=
  "\x7b" ++
    String.intercalate ", "
      (kvs.map fun kv => "\"" ++ kv.1 ++ "\": " ++ toString kv.2) ++
  "\x7d"

/-- Exceptions that can cross `update_device_state`'s boundary: the
`NameError` raised when a name does not resolve, and the two exception
classes handled in `status_update` (lines 128 and 139 of the source). -/
inductive PyError where
  | nameError (missing : String)
  | bluetoothBackendException
  | deviceTimeoutError
deriving DecidableEq, Repr

/-- Embedding of `MifloraWorker.update_device_state`, lines 150-165 of the
source, for a call in which all five parameter reads succeed (the reads
themselves are the external capability; a read failure surfaces as one of
the handled exceptions instead, see `stepDevice`).  Line 160 evaluates the
global name `json`; when it does not resolve the statement raises
`NameError` and nothing after line 159 executes, so the function returns the
original state unchanged.  When it does resolve, the telemetry message is
built, the online availability message is appended when
`self.error_count >= self.errors_to_offline or self.is_online is not True`
(line 161), and the counter is reset to 0 (line 164). -/
def update_device_state (w : Worker) (s : WorkerState) (name : String)
    (r : Readings) : Except PyError (WorkerState × List MqttMessage) :=
  let data := telemetryData r
  if json_in_scope then
    let ret : List MqttMessage :=
      [{ topic := format_topic name [], payload := dumps data }]
    let out :=
      if w.errors_to_offline ≤ s.error_count ∨ s.is_online ≠ some true then
        ({ s with is_online := some true },
          ret ++ [{ topic := format_topic name ["availability"],
                    payload := "online" }])
      else
        (s, ret)
    Except.ok ({ out.1 with error_count := 0 }, out.2)
  else
    Except.error (PyError.nameError "json")

/-- The resolved outcome of the guarded read for one device: either every
parameter read inside `update_device_state` succeeded, or the
deadline/retry-wrapped call of line 126-127 ended in a transport error
(`BluetoothBackendException` after retries) or in `DeviceTimeoutError`. -/
inductive PollResult where
  | success (r : Readings)
  | transportError
  | timeoutError
deriving DecidableEq, Repr

/-- Whether a poll result is one of the two anticipated failure kinds. -/
def isFailure : PollResult → Bool
  | PollResult.success _ => false
  | PollResult.transportError => true
  | PollResult.timeoutError => true

/-- Which of the two distinct log messages of `status_update` a device's
handling produces: lines 129-137 (transport) or lines 140-147 (timeout). -/
inductive LogKind where
  | transport
  | timeout
deriving DecidableEq, Repr

/-- The log branch taken for a given poll result. -/
def logKindOf : PollResult → Option LogKind
  | PollResult.success _ => none
  | PollResult.transportError => some LogKind.transport
  | PollResult.timeoutError => some LogKind.timeout

/-- Embedding of the per-device body of `MifloraWorker.status_update`,
lines 121-148 of the source: run the guarded update; on
`BluetoothBackendException` or `DeviceTimeoutError` log (distinct messages)
and yield `avail_offline`; any other exception (in particular the
`NameError` of the success path) is not caught and propagates out of the
generator. -/
def stepDevice (w : Worker) (s : WorkerState) (name : String)
    (k : PollResult) :
    Except PyError (WorkerState × List MqttMessage × Option LogKind) :=
  match k with
  | PollResult.success r =>
    match update_device_state w s name r with
    | Except.ok (s', msgs) => Except.ok (s', msgs, none)
    | Except.error PyError.bluetoothBackendException =>
      let p := avail_offline w s name
      Except.ok (p.1, p.2, some LogKind.transport)
    | Except.error PyError.deviceTimeoutError =>
      let p := avail_offline w s name
      Except.ok (p.1, p.2, some LogKind.timeout)
    | Except.error e => Except.error e
  | PollResult.transportError =>
    let p := avail_offline w s name
    Except.ok (p.1, p.2, some LogKind.transport)
  | PollResult.timeoutError =>
    let p := avail_offline w s name
    Except.ok (p.1, p.2, some LogKind.timeout)

/-- One full pass of the `status_update` generator (lines 118-148 of the
source) over a device list with resolved per-device outcomes, flattening
the yielded message lists in order.  An uncaught exception aborts the pass;
the messages already yielded before the abort are carried in the error. -/
def runCycle (w : Worker) (s : WorkerState) :
    List (String × PollResult) →
      Except (List MqttMessage × PyError) (WorkerState × List MqttMessage)
  | [] => Except.ok (s, [])
  | d :: rest =>
    match stepDevice w s d.1 d.2 with
    | Except.ok (s', msgs, _) =>
      match runCycle w s' rest with
      | Except.ok (s'', more) => Except.ok (s'', msgs ++ more)
      | Except.error (more, e) => Except.error (msgs ++ more, e)
    | Except.error e => Except.error ([], e)

/-- A sequence of consecutive failure handlings (`avail_offline` calls),
collecting the emitted availability messages. -/
def runFailures (w : Worker) (s : WorkerState) :
    List String → WorkerState × List MqttMessage
  | [] => (s, [])
  | n :: ns =>
    let p := avail_offline w s n
    let q := runFailures w p.1 ns
    (q.1, p.2 ++ q.2)

/-- How many of the listed poll outcomes are failures of the given device. -/
def deviceFailures (ds : List (String × PollResult)) (dev : String) : Nat :=
  (ds.filter fun d => d.1 == dev && isFailure d.2).length

/-- Modelled from the spec: `format_discovery_id` lives in `workers/base.py`,
not under `src/`.  The spec says discovery payloads carry "stable unique
identifiers derived from device address + parameter name"; modelled as the
address joined with the remaining arguments by underscores.  The source
calls it as `format_discovery_id(mac, name)` and
`format_discovery_id(mac, name, attr)`. -/
def format_discovery_id (mac : String) (args : List String) : String :=
  String.intercalate "_" (mac :: args)

/-- Modelled from the spec: `format_discovery_name` lives in
`workers/base.py`, not under `src/`; modelled as an underscore join of its
arguments. -/
def format_discovery_name (args : List String) : String :=
  String.intercalate "_" args

/-- Modelled from the spec: `format_prefixed_topic` lives in
`workers/base.py`, not under `src/`; the spec says state topics are keyed
by device name, modelled as a "/" join. -/
def format_prefixed_topic (name : String) (args : List String) : String :=
  String.intercalate "/" (name :: args)

/-- Modelled from the spec: `format_discovery_topic` lives in
`workers/base.py`, not under `src/`; modelled as a "/" join of the address
and the remaining arguments. -/
def format_discovery_topic (mac : String) (args : List String) : String :=
  String.intercalate "/" (mac :: args)

/-- Modelled from the spec: the component constants `MqttConfigMessage.SENSOR`
and `MqttConfigMessage.BINARY_SENSOR` live in `mqtt.py`, not under `src/`. -/
def SENSOR : String := "sensor"

/-- Modelled from the spec: see `SENSOR`. -/
def BINARY_SENSOR : String := "binary_sensor"

/-- The `device` dict built on lines 50-55 of the source. -/
structure DeviceInfo where
  identifiers : List String
  manufacturer : String
  model : String
  name : String
deriving DecidableEq, Repr

/-- The discovery payload dict of `config_device` (lines 58-63 of the
source, with the optional keys added by the per-attribute `payload.update`
calls of lines 65-82 embedded as `Option` fields). -/
structure ConfigPayload where
  unique_id : String
  state_topic : String
  name : String
  device : DeviceInfo
  device_class : Option String := none
  unit_of_measurement : Option String := none
  icon : Option String := none
deriving DecidableEq, Repr

/-- Modelled from the spec: `MqttConfigMessage` is declared in `mqtt.py`,
not under `src/`: a component kind, a topic and a payload. -/
structure MqttConfigMessage where
  component : String
  topic : String
  payload : ConfigPayload
deriving DecidableEq, Repr

/-- Embedding of `MifloraWorker.config_device`, lines 48-106 of the source:
one sensor config message per monitored attribute — with the `light`
payload's `unique_id` overwritten to use "illuminance" (line 68) — followed
by one binary-sensor config message for `low_battery`. -/
def config_device (name mac : String) : List MqttConfigMessage :=
  let device : DeviceInfo :=
    { identifiers := [mac, format_discovery_id mac [name]],
      manufacturer := "Xiaomi", model := "MiFlora",
      name := format_discovery_name [name] }
  let ret := monitoredAttrs.map fun attr =>
    let payload : ConfigPayload :=
      { unique_id := format_discovery_id mac [name, attr],
        state_topic := format_prefixed_topic name [attr],
        name := format_discovery_name [name, attr],
        device := device }
    let payload :=
      if attr = "light" then
        { payload with unique_id := format_discovery_id mac [name, "illuminance"],
                       device_class := some "illuminance",
                       unit_of_measurement := some "lux" }
      else if attr = "moisture" then
        { payload with icon := some "mdi:water",
                       unit_of_measurement := some "%" }
      else if attr = "conductivity" then
        { payload with icon := some "mdi:leaf",
                       unit_of_measurement := some "µS/cm" }
      else if attr = "temperature" then
        { payload with device_class := some "temperature",
                       unit_of_measurement := some "°C" }
      else if attr = ATTR_BATTERY then
        { payload with device_class := some "battery",
                       unit_of_measurement := some "%" }
      else payload
    { component := SENSOR,
      topic := format_discovery_topic mac [name, attr],
      payload := payload }
  ret ++
    [{ component := BINARY_SENSOR,
       topic := format_discovery_topic mac [name, ATTR_LOW_BATTERY],
       payload :=
         { unique_id := format_discovery_id mac [name, ATTR_LOW_BATTERY],
           state_topic := format_prefixed_topic name [ATTR_LOW_BATTERY],
           name := format_discovery_name [name, ATTR_LOW_BATTERY],
           device := device } }]

/-- Modelled from the spec: the result of one invocation of the read
capability — success with readings or an explicit transport fault. -/
inductive ReadResult where
  | success (r : Readings)
  | transportError
deriving DecidableEq, Repr

/-- Modelled from the spec: one attempt of the read capability either
completes after `time` with a result, or never returns. -/
inductive AttemptOutcome where
  | completes (time : Nat) (res : ReadResult)
  | hangs
deriving Repr

/-- Modelled from the spec: the observable behaviour of the retried
operation: it returns at some total elapsed time, or never returns. -/
inductive OpResult where
  | returns (time : Nat) (res : ReadResult)
  | neverReturns
deriving Repr

/-- Modelled from the spec: the `PollOutcome` contract between
DeadlineGuard/RetryPolicy and the Scheduler: tagged variant
Success(readings) / RetryableFailure / TimeoutFailure. -/
inductive PollOutcome where
  | success (r : Readings)
  | retryableFailure
  | timeoutFailure
deriving DecidableEq, Repr

/-- Modelled from the spec: `retry` lives in `workers/base.py`, not under
`src/`.  Per the spec's RetryPolicy contract it invokes the operation up to
`budget + 1` times, only the retryable error kind (the transport error)
triggers a retry, retries are immediate, and exhausting retries propagates
the last failure.  `attempts i` is the behaviour of the i-th invocation and
`elapsed` accumulates wall-clock time across attempts. -/
def withRetry (attempts : Nat → AttemptOutcome) : Nat → Nat → Nat → OpResult
  | i, budget, elapsed =>
    match attempts i with
    | AttemptOutcome.hangs => OpResult.neverReturns
    | AttemptOutcome.completes t (ReadResult.success r) =>
      OpResult.returns (elapsed + t) (ReadResult.success r)
    | AttemptOutcome.completes t ReadResult.transportError =>
      match budget with
      | 0 => OpResult.returns (elapsed + t) ReadResult.transportError
      | b + 1 => withRetry attempts (i + 1) b (elapsed + t)

/-- Modelled from the spec: the `timeout` context manager comes from the
external `interruptingcow` package.  Per the spec's DeadlineGuard contract
it races the wrapped operation against a timer of length `d`; if the timer
elapses first the outcome is the distinguished `TimeoutFailure`. -/
def withDeadline (op : OpResult) (d : Nat) : PollOutcome :=
  match op with
  | OpResult.neverReturns => PollOutcome.timeoutFailure
  | OpResult.returns t res =>
    if d < t then PollOutcome.timeoutFailure
    else
      match res with
      | ReadResult.success r => PollOutcome.success r
      | ReadResult.transportError => PollOutcome.retryableFailure

/-- The guarded per-device call of lines 126-127 of the source: the deadline
wraps the already-retried read, `timeout(d)( retry(op, retries) )`. -/
def guardedPoll (attempts : Nat → AttemptOutcome) (retries d : Nat) :
    PollOutcome :=
  withDeadline (withRetry attempts 0 retries 0) d

/-- How `status_update` sees a `PollOutcome`: a timeout failure arrives as
`DeviceTimeoutError` (line 139), a retryable failure as
`BluetoothBackendException` (line 128). -/
def pollResultOf : PollOutcome → PollResult
  | PollOutcome.success r => PollResult.success r
  | PollOutcome.retryableFailure => PollResult.transportError
  | PollOutcome.timeoutFailure => PollResult.timeoutError

/-! Helper lemmas. -/

lemma json_not_bound : json_in_scope = false := by decide

lemma update_device_state_error (w : Worker) (s : WorkerState) (n : String)
    (r : Readings) :
    update_device_state w s n r = Except.error (PyError.nameError "json") := by
  simp [update_device_state, json_not_bound]

lemma stepDevice_success_error (w : Worker) (s : WorkerState) (n : String)
    (r : Readings) :
    stepDevice w s n (PollResult.success r) =
      Except.error (PyError.nameError "json") := by
  simp [stepDevice, update_device_state_error]

lemma stepDevice_failure (w : Worker) (s : WorkerState) (n : String)
    (k : PollResult) (hk : isFailure k = true) :
    stepDevice w s n k =
      Except.ok ((avail_offline w s n).1, (avail_offline w s n).2,
        logKindOf k) := by
  cases k with
  | success r => simp [isFailure] at hk
  | transportError => rfl
  | timeoutError => rfl

lemma avail_offline_len (w : Worker) (s : WorkerState) (n : String) :
    (avail_offline w s n).2.length ≤ 1 := by
  simp only [avail_offline]
  split <;> simp

/-! Theorems for the claims. -/

/-- C3: for every worker state and device, a call of `update_device_state`
in which all five parameter reads succeed raises an unhandled `NameError`
when building the telemetry message — `json` is used on line 160 but never
imported or defined in the module — so the success path never returns a
telemetry message, and `status_update`'s handlers for
`BluetoothBackendException` and `DeviceTimeoutError` do not catch it: the
error propagates out of the per-device step. -/
theorem c3_success_path_name_error (w : Worker) (s : WorkerState)
    (n : String) (r : Readings) :
    json_in_scope = false ∧
    update_device_state w s n r = Except.error (PyError.nameError "json") ∧
    stepDevice w s n (PollResult.success r) =
      Except.error (PyError.nameError "json") :=
  ⟨json_not_bound, update_device_state_error w s n r,
    stepDevice_success_error w s n r⟩

/-- C6 (code evaluated at the failing input): feeding a poll success to the
availability-tracker transition of `update_device_state` never reaches the
reset on line 164 — the call raises `NameError` on line 160 first, so for no
state, device or readings does the success path return, and the failure
streak is never reset to 0 nor any online event emitted by it. -/
theorem c6_success_never_returns (w : Worker) (s s' : WorkerState)
    (n : String) (r : Readings) (msgs : List MqttMessage) :
    update_device_state w s n r ≠ Except.ok (s', msgs) := by
  rw [update_device_state_error]
  exact fun h => Except.noConfusion h

/-- C7 (code evaluated at the failing input): the telemetry dict of
lines 153-159 does contain exactly the fields temperature, moisture, light,
conductivity and battery, in that order, but the telemetry message itself is
never produced: handling a successful poll raises `NameError ("json")`
instead of yielding the message list, so no device output with the claimed
shape and ordering ever exists. -/
theorem c7_telemetry_never_emitted (w : Worker) (s : WorkerState)
    (n : String) (r : Readings) :
    (telemetryData r).map Prod.fst = monitoredAttrs ∧
    stepDevice w s n (PollResult.success r) =
      Except.error (PyError.nameError "json") :=
  ⟨rfl, stepDevice_success_error w s n r⟩

/-- C2 (counterexample): with devices A (read succeeds) and B (times out)
and `errors_to_offline = 1`, the first poll cycle does not output A's
telemetry record and B's offline event — processing A raises the unhandled
`NameError ("json")` before anything is yielded, so the cycle aborts with no
output for either device, contradicting the claim's cycle-1 output. -/
theorem c2_counterexample :
    runCycle ⟨1, 0, 10⟩ initialState
      [("A", PollResult.success ⟨21, 40, 1000, 300, 95⟩),
       ("B", PollResult.timeoutError)] =
      Except.error ([], PyError.nameError "json") := by
  simp [runCycle, stepDevice_success_error]

/-- C2 (amended): with devices A (read succeeds) and B (times out) and
`errors_to_offline = 1`, every poll cycle aborts while handling A with the
unhandled `NameError ("json")`, before any message is yielded: neither A's
telemetry nor any availability event for A or B is ever output, whatever
readings A produces. -/
theorem c2_amended_cycle_aborts (r : Readings) :
    runCycle ⟨1, 0, 10⟩ initialState
      [("A", PollResult.success r), ("B", PollResult.timeoutError)] =
      Except.error ([], PyError.nameError "json") := by
  simp [runCycle, stepDevice_success_error]

/-- C4 (code evaluated at the failing input): single device D1 with
`errors_to_offline = 3` and raw outcomes fail, fail, fail, fail, success.
Cycles 1-4 behave exactly as the claim says — no event (streak 1), no event
(streak 2), exactly one offline event (streak 3), no event (streak 4,
already Offline) — but cycle 5 raises the unhandled `NameError ("json")`
instead of emitting the online event together with the telemetry record and
resetting the streak. -/
theorem c4_five_cycle_evaluation (r : Readings) :
    runCycle ⟨3, 1, 10⟩ initialState [("D1", PollResult.transportError)] =
      Except.ok (⟨1, none⟩, []) ∧
    runCycle ⟨3, 1, 10⟩ ⟨1, none⟩ [("D1", PollResult.transportError)] =
      Except.ok (⟨2, none⟩, []) ∧
    runCycle ⟨3, 1, 10⟩ ⟨2, none⟩ [("D1", PollResult.transportError)] =
      Except.ok (⟨3, some false⟩,
        [{ topic := "D1/availability", payload := "offline" }]) ∧
    runCycle ⟨3, 1, 10⟩ ⟨3, some false⟩ [("D1", PollResult.transportError)] =
      Except.ok (⟨4, some false⟩, []) ∧
    runCycle ⟨3, 1, 10⟩ ⟨4, some false⟩ [("D1", PollResult.success r)] =
      Except.error ([], PyError.nameError "json") := by
  refine ⟨rfl, rfl, rfl, rfl, ?_⟩
  simp [runCycle, stepDevice_success_error]

/-! Lemmas about sequences of failure handlings. -/

lemma avail_offline_state_count (w : Worker) (s : WorkerState) (n : String) :
    (avail_offline w s n).1.error_count = s.error_count + 1 := by
  simp only [avail_offline]
  split <;> rfl

lemma avail_offline_already_offline (w : Worker) (s : WorkerState)
    (n : String) (h : s.is_online = some false) :
    avail_offline w s n = ({ s with error_count := s.error_count + 1 }, []) := by
  simp [avail_offline, h]

lemma avail_offline_cases (w : Worker) (s : WorkerState) (n : String) :
    (avail_offline w s n).2 = [] ∨
    ((avail_offline w s n).2.length = 1 ∧
      (avail_offline w s n).1.is_online = some false) := by
  simp only [avail_offline]
  split
  · exact Or.inr ⟨rfl, rfl⟩
  · exact Or.inl rfl

lemma runFailures_cons (w : Worker) (s : WorkerState) (n : String)
    (ns : List String) :
    runFailures w s (n :: ns) =
      ((runFailures w (avail_offline w s n).1 ns).1,
       (avail_offline w s n).2 ++
         (runFailures w (avail_offline w s n).1 ns).2) := by
  simp [runFailures]

lemma runFailures_offline (w : Worker) :
    ∀ (ns : List String) (s : WorkerState), s.is_online = some false →
      (runFailures w s ns).2 = [] := by
  intro ns
  induction ns with
  | nil => intro s _; rfl
  | cons n ns ih =>
    intro s h
    rw [runFailures_cons, avail_offline_already_offline w s n h]
    exact ih _ h

lemma runFailures_len (w : Worker) :
    ∀ (ns : List String) (s : WorkerState),
      (runFailures w s ns).2.length ≤ 1 := by
  intro ns
  induction ns with
  | nil => intro s; simp [runFailures]
  | cons n ns ih =>
    intro s
    rw [runFailures_cons]
    rcases avail_offline_cases w s n with h | ⟨h1, h2⟩
    · simpa [h] using ih (avail_offline w s n).1
    · have hz := runFailures_offline w ns (avail_offline w s n).1 h2
      simp [hz, h1]

lemma runFailures_count (w : Worker) :
    ∀ (ns : List String) (s : WorkerState),
      (runFailures w s ns).1.error_count = s.error_count + ns.length := by
  intro ns
  induction ns with
  | nil => intro s; simp [runFailures]
  | cons n ns ih =>
    intro s
    rw [runFailures_cons]
    simp only [ih, avail_offline_state_count, List.length_cons]
    omega

/-- C1 (counterexample): with two devices and `errors_to_offline = 2`,
handling device A's poll failure does not leave device B's tracking
unchanged.  Starting from the initial state, a cycle handling only B's first
failure emits nothing for B (streak 1 of 2), but a cycle handling A's
failure and then the very same first failure of B emits an offline event for
B — A's handling mutated the counter B's handling reads, so the state is
shared across devices and the claim is false at this input. -/
theorem c1_counterexample :
    runCycle ⟨2, 0, 10⟩ initialState [("B", PollResult.transportError)] =
      Except.ok (⟨1, none⟩, []) ∧
    runCycle ⟨2, 0, 10⟩ initialState
      [("A", PollResult.transportError), ("B", PollResult.transportError)] =
      Except.ok (⟨2, some false⟩,
        [{ topic := "B/availability", payload := "offline" }]) ∧
    ([] : List MqttMessage) ≠
      [{ topic := "B/availability", payload := "offline" }] :=
  ⟨rfl, rfl, by decide⟩

/-- C1 (amended): the failure streak and online/offline status are
worker-level attributes shared by every device of the worker, not
per-device state: handling a poll failure performs the same state
transition whatever device it is for, so one device's poll result changes
the single streak and status that every other device's handling reads. -/
theorem c1_amended_state_shared_across_devices (w : Worker)
    (s : WorkerState) (n1 n2 : String) :
    (avail_offline w s n1).1 = (avail_offline w s n2).1 := by
  simp only [avail_offline]
  split <;> rfl

/-- C5 (counterexample): offline events are not tied to the device's own
failure streak.  With `errors_to_offline = 2` and a history in which device
B fails exactly once (its uninterrupted failure run has length 1, below the
threshold), the cycle handling A's failure and then B's emits an offline
event for B: the event fires at the shared counter's threshold crossing,
not at the cycle where B's own failure streak first reaches the
threshold, so the claim is false at this input. -/
theorem c5_counterexample :
    deviceFailures
      [("A", PollResult.transportError), ("B", PollResult.transportError)]
      "B" = 1 ∧
    1 < 2 ∧
    runCycle ⟨2, 0, 10⟩ initialState
      [("A", PollResult.transportError), ("B", PollResult.transportError)] =
      Except.ok (⟨2, some false⟩,
        [{ topic := "B/availability", payload := "offline" }]) :=
  ⟨rfl, by decide, rfl⟩

/-- C5 (amended): availability is tracked per worker, not per device: over
every uninterrupted sequence of poll failures handled by the worker
(whatever devices they belong to) at most one offline event is emitted —
at the step where the shared counter reaches the threshold while the worker
is not already marked offline — and the shared failure counter increases by
exactly one per failure, never reset or clamped by a failure. -/
theorem c5_amended_one_offline_per_run (w : Worker) (s : WorkerState)
    (ns : List String) :
    (runFailures w s ns).2.length ≤ 1 ∧
    (runFailures w s ns).1.error_count = s.error_count + ns.length :=
  ⟨runFailures_len w ns s, runFailures_count w ns s⟩

lemma runCycle_all_failures_ok (w : Worker) :
    ∀ (ds : List (String × PollResult)) (s : WorkerState),
      (∀ d ∈ ds, isFailure d.2 = true) →
      ∃ sEnd msgs, runCycle w s ds = Except.ok (sEnd, msgs) := by
  intro ds
  induction ds with
  | nil => intro s _; exact ⟨s, [], rfl⟩
  | cons d rest ih =>
    intro s h
    have hd : isFailure d.2 = true := h d (List.mem_cons_self d rest)
    have hrest : ∀ d' ∈ rest, isFailure d'.2 = true :=
      fun d' hm => h d' (List.mem_cons_of_mem d hm)
    obtain ⟨sEnd, msgs, hrec⟩ := ih ((avail_offline w s d.1).1) hrest
    refine ⟨sEnd, (avail_offline w s d.1).2 ++ msgs, ?_⟩
    simp [runCycle, stepDevice_failure w s d.1 d.2 hd, hrec]

/-- C8: both anticipated failure kinds are contained inside the per-cycle
iteration.  For a device whose guarded poll ends in a transport error or a
timeout, the per-device step never raises: it feeds the failure to
`avail_offline`, emits exactly its availability messages — at most one —
with the matching log branch, and for a cycle all of whose devices fail with
anticipated kinds the whole `status_update` pass completes normally, never
surfacing a device failure as a failure of the overall invocation. -/
theorem c8_failure_containment (w : Worker) (s s' : WorkerState)
    (n : String) (k : PollResult) (ds : List (String × PollResult))
    (hk : isFailure k = true) (hds : ∀ d ∈ ds, isFailure d.2 = true) :
    stepDevice w s' n k =
      Except.ok ((avail_offline w s' n).1, (avail_offline w s' n).2,
        logKindOf k) ∧
    (avail_offline w s' n).2.length ≤ 1 ∧
    ∃ sEnd msgs, runCycle w s ds = Except.ok (sEnd, msgs) :=
  ⟨stepDevice_failure w s' n k hk, avail_offline_len w s' n,
    runCycle_all_failures_ok w ds s hds⟩

/-- Witness for C8 at a concrete input: worker with threshold 1, device A
timing out and device B failing with a transport error. -/
theorem c8_failure_containment_witness :
    stepDevice ⟨1, 0, 10⟩ initialState "A" PollResult.timeoutError =
      Except.ok ((avail_offline ⟨1, 0, 10⟩ initialState "A").1,
        (avail_offline ⟨1, 0, 10⟩ initialState "A").2,
        logKindOf PollResult.timeoutError) ∧
    (avail_offline ⟨1, 0, 10⟩ initialState "A").2.length ≤ 1 ∧
    ∃ sEnd msgs,
      runCycle ⟨1, 0, 10⟩ initialState
        [("A", PollResult.timeoutError), ("B", PollResult.transportError)] =
        Except.ok (sEnd, msgs) :=
  c8_failure_containment ⟨1, 0, 10⟩ initialState initialState "A"
    PollResult.timeoutError
    [("A", PollResult.timeoutError), ("B", PollResult.transportError)]
    (by decide) (by decide)

/-- C10 (counterexample): the six identifiers emitted by `config_device` for
a concrete device are not all derived from the device address and the
parameter name: the message for the monitored parameter "light" carries
`format_discovery_id mac [name, "illuminance"]` (line 68 of the source
overwrites it), which differs from
`format_discovery_id mac [name, "light"]`, so the claim is false at this
input. -/
theorem c10_counterexample :
    ((config_device "plant" "AA:BB:CC").map fun m => m.payload.unique_id) =
      ["AA:BB:CC_plant_temperature", "AA:BB:CC_plant_moisture",
       "AA:BB:CC_plant_illuminance", "AA:BB:CC_plant_conductivity",
       "AA:BB:CC_plant_battery", "AA:BB:CC_plant_low_battery"] ∧
    "AA:BB:CC_plant_illuminance" ≠
      format_discovery_id "AA:BB:CC" ["plant", "light"] :=
  ⟨rfl, by decide⟩

/-- C10 (amended): for every device, `config_device` returns exactly one
config message per monitored parameter plus one for the low-battery binary
indicator — six in total — each carrying an identifier derived from the
device address, the device name and the parameter name, except the light
message whose identifier uses "illuminance" in place of its parameter
name. -/
theorem c10_amended_discovery_payloads (name mac : String) :
    (config_device name mac).length = 6 ∧
    ((config_device name mac).map fun m => m.payload.unique_id) =
      [format_discovery_id mac [name, "temperature"],
       format_discovery_id mac [name, "moisture"],
       format_discovery_id mac [name, "illuminance"],
       format_discovery_id mac [name, "conductivity"],
       format_discovery_id mac [name, ATTR_BATTERY],
       format_discovery_id mac [name, ATTR_LOW_BATTERY]] :=
  ⟨rfl, rfl⟩

lemma withRetry_elapsed_le (a : Nat → AttemptOutcome) :
    ∀ (b i e t : Nat) (res : ReadResult),
      withRetry a i b e = OpResult.returns t res → e ≤ t := by
  intro b
  induction b with
  | zero =>
    intro i e t res h
    unfold withRetry at h
    cases ha : a i with
    | hangs => rw [ha] at h; simp at h
    | completes t0 r0 =>
      rw [ha] at h
      cases r0 with
      | success r => simp at h; omega
      | transportError => simp at h; omega
  | succ b ih =>
    intro i e t res h
    unfold withRetry at h
    cases ha : a i with
    | hangs => rw [ha] at h; simp at h
    | completes t0 r0 =>
      rw [ha] at h
      cases r0 with
      | success r => simp at h; omega
      | transportError =>
        simp only [] at h
        have := ih (i + 1) (e + t0) t res h
        omega

lemma guardedPoll_timeout (a : Nat → AttemptOutcome) (retries d : Nat)
    (h : ∀ t res, a 0 = AttemptOutcome.completes t res → d < t) :
    guardedPoll a retries d = PollOutcome.timeoutFailure := by
  unfold guardedPoll withRetry
  cases ha : a 0 with
  | hangs => rfl
  | completes t0 r0 =>
    have hd : d < t0 := h t0 r0 ha
    cases r0 with
    | success r =>
      show withDeadline (OpResult.returns (0 + t0) (ReadResult.success r)) d = _
      simp only [withDeadline]
      rw [if_pos (by omega)]
    | transportError =>
      cases retries with
      | zero =>
        show withDeadline
          (OpResult.returns (0 + t0) ReadResult.transportError) d = _
        simp only [withDeadline]
        rw [if_pos (by omega)]
      | succ b =>
        show withDeadline (withRetry a (0 + 1) b (0 + t0)) d = _
        cases hr : withRetry a (0 + 1) b (0 + t0) with
        | neverReturns => rfl
        | returns t1 res1 =>
          have hle : 0 + t0 ≤ t1 :=
            withRetry_elapsed_le a b (0 + 1) (0 + t0) t1 res1 hr
          simp only [withDeadline]
          rw [if_pos (by omega)]

/-- C9: the per-device deadline wraps the already-retried read (line 126-127
of the source composes the timeout context around the `retry`-wrapped
call), so for a device whose read capability never returns within
`per_device_timeout` — its first attempt hangs or completes only after the
deadline — the guarded poll outcome is the distinguished timeout failure,
whatever retry budget remains, and `status_update` dispatches it to the
`DeviceTimeoutError` branch, whose log kind is distinct from the transport
error branch's. -/
theorem c9_timeout_precedence (a : Nat → AttemptOutcome) (retries d : Nat)
    (w : Worker) (s : WorkerState) (n : String)
    (h : ∀ t res, a 0 = AttemptOutcome.completes t res → d < t) :
    guardedPoll a retries d = PollOutcome.timeoutFailure ∧
    stepDevice w s n (pollResultOf (guardedPoll a retries d)) =
      Except.ok ((avail_offline w s n).1, (avail_offline w s n).2,
        some LogKind.timeout) ∧
    LogKind.timeout ≠ LogKind.transport := by
  have hg := guardedPoll_timeout a retries d h
  refine ⟨hg, ?_, by decide⟩
  rw [hg]
  exact stepDevice_failure w s n PollResult.timeoutError rfl

/-- Witness for C9 at a concrete input: a read that hangs forever, a
deadline of 10 and a retry budget of 2. -/
theorem c9_timeout_precedence_witness :
    guardedPoll (fun _ => AttemptOutcome.hangs) 2 10 =
      PollOutcome.timeoutFailure ∧
    stepDevice ⟨3, 1, 10⟩ initialState "D1"
      (pollResultOf (guardedPoll (fun _ => AttemptOutcome.hangs) 2 10)) =
      Except.ok ((avail_offline ⟨3, 1, 10⟩ initialState "D1").1,
        (avail_offline ⟨3, 1, 10⟩ initialState "D1").2,
        some LogKind.timeout) ∧
    LogKind.timeout ≠ LogKind.transport :=
  c9_timeout_precedence (fun _ => AttemptOutcome.hangs) 2 10 ⟨3, 1, 10⟩
    initialState "D1" (fun _ _ hc => nomatch hc)
